import Mathlib

/-!
# VisuArXiv pipeline: verification of the concurrent media pipeline

Shallow embedding of the core of the VisuArXiv repository
(`src/pipeline.py`, `src/claude_mcp_animator.py`, `src/claude_animator.py`,
`src/voiceover.py`, `src/video_composer.py`, `src/supabase_cache.py`).

Modelling conventions:
* Python strings are embedded as `List Char` (`Str`), so that every string
  operation is a structurally recursive, kernel-evaluable function.
* Durations (Python floats used only in additive/min/max arithmetic) are
  embedded as `ℚ`.
* External effectful calls (LLM oracles, ffmpeg, TTS, the Supabase network
  client) are oracles passed in as function arguments; fallible calls return
  `Except`.  Python exceptions that propagate are modelled with `Except`
  results of the embedded functions.
* `concurrent.futures` fan-out/fan-in loops (`as_completed`) are modelled by
  an explicit completion order: the list of jobs in the order their futures
  complete.  The embedded stage folds over that order exactly as the Python
  loop folds over `as_completed(futures)`, writing each result into the slot
  of its submission index.

The file is organised as: all definitions first, then all theorems.
-/

namespace VisuArXiv

/-- Python strings, embedded as lists of characters. -/
abbrev Str := List Char

/-! ## Definitions: concurrent fan-out/fan-in stages

All three concurrent stages share the Python pattern

  results = [None] * n
  futures = \x7bexecutor.submit(job, ...): ...\x7d
  for future in as_completed(futures):
      index, value = future.result()
      results[index] = value
-/

/-- `ClaudeMCPAnimator.generate_animations_concurrent`
(src/claude_mcp_animator.py, lines 444-493): futures are submitted for
`enumerate(scenes)`; each worker returns `(index, code, video_path)` and the
loop stores `results[index] = (code, video_path)`.  `completed` is the order
in which `as_completed` yields the `(index, scene)` jobs. -/
def generate_animations_concurrent {S C : Type} (generate_animation : S → Nat → Option C × Option Str)
    (scenes : List S) (completed : List (Nat × S)) : List (Option (Option C × Option Str)) :=
  completed.foldl (fun results b => results.set b.1 (some (generate_animation b.2 b.1)))
    (List.replicate scenes.length none)

/-- `VoiceoverGenerator._generate_concurrent` (src/voiceover.py, lines
152-187): same fan-in pattern, storing `audio_paths[index] = audio_path`. -/
def generate_voiceovers_concurrent {S : Type} (generate_single : S → Nat → Str)
    (scenes : List S) (completed : List (Nat × S)) : List (Option Str) :=
  completed.foldl (fun paths b => paths.set b.1 (some (generate_single b.2 b.1)))
    (List.replicate scenes.length none)

/-- The concurrent combine loop of `VideoComposer.compose_full_video`
(src/video_composer.py, lines 367-386): futures are submitted for
`range(len(video_paths))`; `combined_paths[index] = path`. -/
def combine_videos_concurrent (combine_single : Nat → Str) (total_videos : Nat)
    (completed : List Nat) : List (Option Str) :=
  completed.foldl (fun acc i => acc.set i (some (combine_single i)))
    (List.replicate total_videos none)

/-! ## Definitions: generation worker retry loops

`ClaudeAnimator.generate_animation` (src/claude_animator.py, lines 46-95) and
`ClaudeMCPAnimator.generate_animation` (src/claude_mcp_animator.py, lines
146-215).  The LLM and the Manim renderer are oracles; the loop structure,
iteration bounds and break conditions are translated from the source. -/

/-- `ClaudeAnimator.max_retries` (src/claude_animator.py, line 38). -/
def max_retries : Nat := 3

/-- `ClaudeMCPAnimator.max_iterations` (src/claude_mcp_animator.py, line 111). -/
def max_iterations : Nat := 5

/-- The loop of `ClaudeAnimator.generate_animation`.  `respond attempt` is the
code extracted (by `_extract_code`) from the LLM response of that attempt
(`none` when no code block was found); `render attempt code` is the
`(success, result)` pair of `_render_animation`.  Arguments after the oracles:
remaining loop iterations, the attempt counter, the current `code` and
`last_error` variables.  The returned triple is `(code, video_path, number of
loop iterations executed)`; the last component instruments the attempt count. -/
def plain_generate_animation_loop (respond : Nat → Option Str) (render : Nat → Str → Bool × Str) :
    Nat → Nat → Option Str → Option Str → Option Str × Option Str × Nat
  | 0, attempt, code, _ => (code, none, attempt)
  | fuel + 1, attempt, _, lastError =>
    match respond attempt with
    | none => plain_generate_animation_loop respond render fuel (attempt + 1) none lastError
    | some c =>
      match render attempt c with
      | (true, result) => (some c, some result, attempt + 1)
      | (false, result) =>
        plain_generate_animation_loop respond render fuel (attempt + 1) (some c) (some result)

/-- `ClaudeAnimator.generate_animation`: run the retry loop for `max_retries`
attempts starting from `code = None`, `video_path = None`. -/
def plain_generate_animation (respond : Nat → Option Str) (render : Nat → Str → Bool × Str) :
    Option Str × Option Str × Nat :=
  plain_generate_animation_loop respond render max_retries 0 none none

/-- Outcome of one `render_manim` tool execution
(`ClaudeMCPAnimator._render_manim`, src/claude_mcp_animator.py, lines
264-300).  `okWithPath` is the success message carrying `Video path: ...mp4`
(matched by the regex at line 191); `okNoFile` is the render that completed
with no video file found (line 290, still marked with the check mark);
`failed`, `timeout` and `noManim` are the error messages (lines 293-298). -/
inductive RenderOutcome : Type
  | okWithPath (path : Str)
  | okNoFile
  | failed (err : Str)
  | timeout
  | noManim
deriving DecidableEq

/-- Whether the result string of `_render_manim` contains the check mark
(tested at line 189 of src/claude_mcp_animator.py). -/
def RenderOutcome.hasCheckMark : RenderOutcome → Bool
  | .okWithPath _ => true
  | .okNoFile => true
  | _ => false

/-- The video path extracted from the result string by the regex at line 191
of src/claude_mcp_animator.py (present exactly on the success message). -/
def RenderOutcome.extractedPath : RenderOutcome → Option Str
  | .okWithPath p => some p
  | _ => none

/-- A content block of one LLM response in the MCP loop.  A `renderCall`
carries the code the assistant sent and the renderer's outcome for it (the
renderer is an external subprocess; its outcome is environment data).
`textBlock` carries the code extracted from the block's text by the regex at
line 210 of src/claude_mcp_animator.py (`none` when no code block matched). -/
inductive MCPBlock : Type
  | renderCall (code : Str) (outcome : RenderOutcome)
  | validateCall
  | docsCall
  | textBlock (extracted : Option Str)
deriving DecidableEq

/-- One LLM response: `toolUse` when `stop_reason == "tool_use"`, otherwise
`final` (src/claude_mcp_animator.py, lines 176 and 207). -/
inductive MCPTurn : Type
  | toolUse (blocks : List MCPBlock)
  | final (blocks : List MCPBlock)
deriving DecidableEq

/-- Processing of the tool-use blocks of one response (src/claude_mcp_animator.py,
lines 179-199): for each `render_manim` call whose result carries the check
mark, `final_code` is set to the call's code and `video_path` is set when the
result matches the `Video path:` regex. -/
def process_tool_blocks (blocks : List MCPBlock) (code videoPath : Option Str) :
    Option Str × Option Str :=
  blocks.foldl
    (fun cp b =>
      match b with
      | .renderCall c outcome =>
        if outcome.hasCheckMark then
          (some c,
            match outcome.extractedPath with
            | some p => some p
            | none => cp.2)
        else cp
      | _ => cp)
    (code, videoPath)

/-- Processing of a non-tool-use response (src/claude_mcp_animator.py, lines
208-213): scan the text blocks and keep the last extractable code block. -/
def process_text_blocks (blocks : List MCPBlock) (code : Option Str) : Option Str :=
  blocks.foldl
    (fun c b =>
      match b with
      | .textBlock (some extracted) => some extracted
      | _ => c)
    code

/-- The iteration loop of `ClaudeMCPAnimator.generate_animation`
(src/claude_mcp_animator.py, lines 165-213).  `turns i` is the LLM response of
iteration `i` (with renderer outcomes attached to its render calls).
Arguments: remaining iterations, the iteration counter, `final_code`,
`video_path`.  Returns `(final_code, video_path, iterations executed)`. -/
def mcp_generate_animation_loop (turns : Nat → MCPTurn) :
    Nat → Nat → Option Str → Option Str → Option Str × Option Str × Nat
  | 0, iter, code, videoPath => (code, videoPath, iter)
  | fuel + 1, iter, code, videoPath =>
    match turns iter with
    | .toolUse blocks =>
      match process_tool_blocks blocks code videoPath with
      | (c2, some p) => (c2, some p, iter + 1)
      | (c2, none) => mcp_generate_animation_loop turns fuel (iter + 1) c2 none
    | .final blocks => (process_text_blocks blocks code, videoPath, iter + 1)

/-- `ClaudeMCPAnimator.generate_animation`: run the loop for `max_iterations`
iterations starting from `final_code = None`, `video_path = None`. -/
def mcp_generate_animation (turns : Nat → MCPTurn) : Option Str × Option Str × Nat :=
  mcp_generate_animation_loop turns max_iterations 0 none none

/-- A block is a failing render call, or no render call at all. -/
def MCPBlock.noSuccessfulRender : MCPBlock → Bool
  | .renderCall _ outcome => !outcome.hasCheckMark
  | _ => true

/-- Every render call the assistant makes, in every turn, fails
("a scene whose render always fails"). -/
def mcpRendersAlwaysFail (turns : Nat → MCPTurn) : Prop :=
  ∀ i, ∀ b ∈ (match turns i with | .toolUse blocks => blocks | .final blocks => blocks),
    b.noSuccessfulRender = true

/-- An MCP oracle whose first response calls `render_manim` (the render times
out) and whose second response is plain text: every render fails, and the
assistant then stops calling tools. -/
def mcpTurnsGiveUp : Nat → MCPTurn := fun i =>
  if i = 0 then .toolUse [.renderCall ['x'] .timeout] else .final []

/-! ## Definitions: composer duration arithmetic

`VideoComposer.combine_video_audio`, `VideoComposer._extend_video` and the
`combine_single` closure of `VideoComposer.compose_full_video`
(src/video_composer.py).  Durations are rationals; the literal `0.1` is
`1/10`, `0.5` is `1/2`. -/

/-- `target_duration = audio_duration + add_end_pause`
(src/video_composer.py, line 74). -/
def combine_video_audio_target (audio_duration add_end_pause : ℚ) : ℚ :=
  audio_duration + add_end_pause

/-- `end_pause = section_pause if index < total_videos - 1 else 0.5`
(src/video_composer.py, line 359). -/
def combine_single_end_pause (section_pause : ℚ) (index total_videos : Nat) : ℚ :=
  if index < total_videos - 1 then section_pause else 1/2

/-- The target duration of the composed segment of scene `index` out of
`total_videos`, as computed by `combine_single` feeding
`combine_video_audio`. -/
def scene_target_duration (audio_duration section_pause : ℚ) (index total_videos : Nat) : ℚ :=
  combine_video_audio_target audio_duration
    (combine_single_end_pause section_pause index total_videos)

/-- `hold_duration = max(0, target_duration - video_duration + 0.1)`
(src/video_composer.py, line 134). -/
def extend_video_hold_duration (target_duration video_duration : ℚ) : ℚ :=
  max 0 (target_duration - video_duration + 1/10)

/-- The duration of `_extend_video`'s output (src/video_composer.py, lines
131-166): when `hold_duration > 0`, ffmpeg `tpad=stop_mode=clone` appends
`hold_duration` seconds of held final frame; otherwise the re-encode runs
with `-t target_duration`, which cuts the output at `target_duration` (an
input already shorter than that is left at its own length). -/
def extend_video_output_duration (video_duration target_duration : ℚ) : ℚ :=
  if 0 < extend_video_hold_duration target_duration video_duration then
    video_duration + extend_video_hold_duration target_duration video_duration
  else
    min video_duration target_duration

/-! ## Definitions: compose_full_video -/

/-- Python exceptions that can cross the embedded function boundaries. -/
inductive PyErr : Type
  | exception (msg : Str)
  | indexError
  | valueError (msg : Str)
deriving DecidableEq

/-- Decimal rendering of a natural number, as Python's f-string does. -/
def natStr (n : Nat) : Str := (Nat.repr n).toList

/-- The message of the `ValueError` raised at src/video_composer.py, line 350. -/
def mismatch_message (num_videos num_audios : Nat) : Str :=
  "Mismatch: ".toList ++ natStr num_videos ++ " videos vs ".toList ++
    natStr num_audios ++ " audio files".toList

/-- `VideoComposer.compose_full_video` (src/video_composer.py, lines
326-392): check the two list lengths, combine each scene's video with its
audio (concurrently when requested and more than one scene, sequentially
otherwise), then stitch.  `combine_single i` is the path returned by
`combine_video_audio` for scene `i`; `stitch_videos` is the final stitch
stage; `completed` is the order in which the combine futures complete.  The
second component of the result lists the scene indices whose combination was
invoked. -/
def compose_full_video (combine_single : Nat → Str)
    (stitch_videos : List (Option Str) → Except PyErr Str)
    (video_paths audio_paths : List Str) (concurrent : Bool) (completed : List Nat) :
    Except PyErr Str × List Nat :=
  if video_paths.length ≠ audio_paths.length then
    (.error (.valueError (mismatch_message video_paths.length audio_paths.length)), [])
  else
    let combined :=
      if concurrent && decide (video_paths.length > 1) then
        combine_videos_concurrent combine_single video_paths.length completed
      else
        (List.range video_paths.length).foldl
          (fun acc i => acc.set i (some (combine_single i)))
          (List.replicate video_paths.length none)
    let invoked :=
      if concurrent && decide (video_paths.length > 1) then completed
      else List.range video_paths.length
    (stitch_videos combined, invoked)

/-! ## Definitions: Supabase video cache

`SupabaseVideoCache` (src/supabase_cache.py).  The remote storage client and
the `urllib` HEAD request are a state machine over an abstract backend state
`σ`; metadata dictionaries are an abstract type `M`. -/

/-- Lower-case one character, as Python `str.lower` does on ASCII. -/
def lower_char (c : Char) : Char :=
  if 'A' ≤ c ∧ c ≤ 'Z' then Char.ofNat (c.toNat + 32) else c

/-- Python `str.lower` (ASCII range). -/
def str_lower (s : Str) : Str := s.map lower_char

/-- Python `str.strip`: remove leading and trailing whitespace. -/
def str_strip (s : Str) : Str :=
  ((s.dropWhile Char.isWhitespace).reverse.dropWhile Char.isWhitespace).reverse

/-- Python `str.endswith`. -/
def ends_with (s suffix : Str) : Bool := suffix.isSuffixOf s

/-- Python slicing `s[:-n]` for `0 < n ≤ len(s)`: drop the last `n`
characters. -/
def drop_right (s : Str) (n : Nat) : Str := s.take (s.length - n)

/-- The suffix list of `SupabaseVideoCache._generate_paper_hash`
(src/supabase_cache.py, line 89). -/
def cache_suffixes : List Str := [".pdf".toList, ".arxiv".toList, ".abs".toList]

/-- The normalization step of `SupabaseVideoCache._generate_paper_hash`
(src/supabase_cache.py, lines 86-91): lower-case, strip surrounding
whitespace, then check the suffixes one after the other in order, removing
each one that the current value ends with. -/
def normalize_identifier (paper_identifier : Str) : Str :=
  cache_suffixes.foldl
    (fun normalized suffix =>
      if ends_with normalized suffix then drop_right normalized suffix.length
      else normalized)
    (str_strip (str_lower paper_identifier))

/-- `SupabaseVideoCache._generate_paper_hash` (src/supabase_cache.py, lines
84-94): the MD5 hex digest of the normalized identifier.  The digest itself
is an opaque deterministic function `digest`; every property proved here
holds for the real MD5 in particular. -/
def generate_paper_hash (digest : Str → Str) (paper_identifier : Str) : Str :=
  digest (normalize_identifier paper_identifier)

/-- Modelled from the spec (claim C8's reading of the identity derivation):
lower-case, strip surrounding whitespace, and remove *a* trailing `.pdf`,
`.arxiv` or `.abs` suffix (a string can end with at most one of them). -/
def claim_normalize (paper_identifier : Str) : Str :=
  let n := str_strip (str_lower paper_identifier)
  if ends_with n ".pdf".toList then drop_right n 4
  else if ends_with n ".arxiv".toList then drop_right n 6
  else if ends_with n ".abs".toList then drop_right n 4
  else n

/-- `SupabaseVideoCache._get_video_path` (src/supabase_cache.py, lines 96-98). -/
def get_video_path (paper_hash : Str) : Str :=
  "videos/".toList ++ paper_hash ++ "/final_video.mp4".toList

/-- `SupabaseVideoCache._get_metadata_path` (src/supabase_cache.py, lines
100-102). -/
def get_metadata_path (paper_hash : Str) : Str :=
  "videos/".toList ++ paper_hash ++ "/metadata.json".toList

/-- Outcome of the `urllib` HEAD request in `check_cache`
(src/supabase_cache.py, lines 138-151): a response with a status code, an
`HTTPError` with a code, or another raised exception. -/
inductive HeadOutcome : Type
  | status (code : Nat)
  | httpError (code : Nat)
  | raised (msg : Str)

/-- An object held in the storage bucket: the video blob or a metadata file. -/
inductive StorageObject (M : Type) : Type
  | video
  | metaFile (m : M)

/-- The Supabase storage client (plus the HEAD request capability) as a state
machine over backend state `σ`.  Each operation consumes and returns the
backend state; `Except` errors model raised exceptions.  `download` returns
the parsed metadata (`none` for an empty response); a download or JSON-parse
exception is its `Except.error` case (both are caught identically by
`check_cache`'s inner `try`, before `metadata` is assigned). -/
structure SBClient (σ M : Type) where
  get_public_url : σ → Str → Except Str Str × σ
  download : σ → Str → Except Str (Option M) × σ
  head_request : σ → Str → HeadOutcome × σ
  remove : σ → Str → Except Str Unit × σ
  upload : σ → Str → StorageObject M → Except Str Unit × σ

/-- `SupabaseVideoCache.check_cache` (src/supabase_cache.py, lines 104-157):
no client gives `(False, None, None)`; any exception from `get_public_url`
gives `(False, None, None)`; a metadata download/parse exception is swallowed
(metadata stays `None`); the HEAD request decides the hit: status 200 is a
hit, anything else (other status, `HTTPError`, other exception) gives
`(False, None, None)`. -/
def check_cache {σ M : Type} (client : Option (SBClient σ M)) (digest : Str → Str)
    (st : σ) (paper_identifier : Str) : (Bool × Option Str × Option M) × σ :=
  match client with
  | none => ((false, none, none), st)
  | some c =>
    let paper_hash := generate_paper_hash digest paper_identifier
    let video_path := get_video_path paper_hash
    let metadata_path := get_metadata_path paper_hash
    match c.get_public_url st video_path with
    | (.error _, st1) => ((false, none, none), st1)
    | (.ok video_url, st1) =>
      let dm := c.download st1 metadata_path
      let metadata : Option M :=
        match dm.1 with
        | .ok (some m) => some m
        | _ => none
      match c.head_request dm.2 video_url with
      | (.status code, st3) =>
        if code = 200 then ((true, some video_url, metadata), st3)
        else ((false, none, none), st3)
      | (.httpError _, st3) => ((false, none, none), st3)
      | (.raised _, st3) => ((false, none, none), st3)

/-- `SupabaseVideoCache.upload_video` (src/supabase_cache.py, lines 159-245):
no client or a missing video file gives `(False, None)`; the `remove` calls'
exceptions are swallowed; any exception from either `upload` or from
`get_public_url` is caught by the outer `try` and gives `(False, None)`;
otherwise the pair `(True, video_url)` is returned.  `update_metadata` models
`metadata.update(\x7b...\x7d)` building the stored metadata dictionary from the
caller's metadata, the identifier and the hash. -/
def upload_video {σ M : Type} (client : Option (SBClient σ M)) (digest : Str → Str)
    (st : σ) (video_file_exists : Bool) (paper_identifier : Str)
    (metadata : M) (update_metadata : M → Str → Str → M) :
    (Bool × Option Str) × σ :=
  match client with
  | none => ((false, none), st)
  | some c =>
    if !video_file_exists then ((false, none), st)
    else
      let paper_hash := generate_paper_hash digest paper_identifier
      let storage_video_path := get_video_path paper_hash
      let storage_metadata_path := get_metadata_path paper_hash
      let r1 := c.remove st storage_video_path
      match c.upload r1.2 storage_video_path .video with
      | (.error _, st2) => ((false, none), st2)
      | (.ok _, st2) =>
        let updated := update_metadata metadata paper_identifier paper_hash
        let r2 := c.remove st2 storage_metadata_path
        match c.upload r2.2 storage_metadata_path (.metaFile updated) with
        | (.error _, st4) => ((false, none), st4)
        | (.ok _, st4) =>
          match c.get_public_url st4 storage_video_path with
          | (.error _, st5) => ((false, none), st5)
          | (.ok video_url, st5) => ((true, some video_url), st5)

/-- A functioning storage backend: a finite map from storage paths to
objects, as an association list. -/
abbrev StoreState (M : Type) := List (Str × StorageObject M)

/-- Look a path up in the backend store. -/
def store_lookup {M : Type} (st : StoreState M) (path : Str) : Option (StorageObject M) :=
  (st.find? (fun e => e.1 == path)).map Prod.snd

/-- Remove a path from the backend store. -/
def store_remove {M : Type} (st : StoreState M) (path : Str) : StoreState M :=
  st.filter (fun e => !(e.1 == path))

/-- Insert (upsert) an object at a path in the backend store. -/
def store_insert {M : Type} (st : StoreState M) (path : Str) (obj : StorageObject M) :
    StoreState M :=
  (path, obj) :: store_remove st path

/-- The public-URL prefix of the bucket (SUPABASE_URL and SUPABASE_BUCKET,
src/supabase_cache.py, lines 21-24). -/
def public_url_base : Str :=
  "https://wnsgwijukvnfcpeuiugk.supabase.co/storage/v1/object/public/research-videos/".toList

/-- The behaviour of a healthy Supabase backend over a `StoreState`:
`get_public_url` is deterministic in the path, `download` returns the stored
metadata or raises, the HEAD request returns 200 exactly when some stored
path's public URL equals the requested URL (404 otherwise), `remove` and
`upload` update the store and never raise. -/
def store_client (M : Type) : SBClient (StoreState M) M where
  get_public_url st path := (.ok (public_url_base ++ path), st)
  download st path :=
    (match store_lookup st path with
      | some (.metaFile m) => .ok (some m)
      | some .video => .error "not a JSON object".toList
      | none => .error "Object not found".toList,
     st)
  head_request st url :=
    (if st.any (fun e => public_url_base ++ e.1 == url) then .status 200
     else .httpError 404,
     st)
  remove st path := (.ok (), store_remove st path)
  upload st path obj := (.ok (), store_insert st path obj)

/-- A backend whose metadata download raises (a transient network error)
while the video object is present and reachable. -/
def metadata_error_client : SBClient Unit Unit where
  get_public_url st path := (.ok (public_url_base ++ path), st)
  download st _ := (.error "connection reset".toList, st)
  head_request st _ := (.status 200, st)
  remove st _ := (.ok (), st)
  upload st _ _ := (.ok (), st)

/-! ## Definitions: pipeline orchestrator

`ResearchToAnimationPipeline.process_paper` (src/pipeline.py, lines 58-213)
and `_create_summary` (lines 236-255).  The researcher, animator, voiceover
generator, composer and cache are the collaborators the orchestrator drives;
each is an oracle field of `PipelineEnv`.  A `PipelineTrace` records which
collaborators a run invoked. -/

/-- Truthiness of an optional Python string: `None` and the empty string are
falsy. -/
def truthyStr : Option Str → Bool
  | none => false
  | some s => !s.isEmpty

/-- `Path(pdf_path).stem`, used by
`ResearchToAnimationPipeline._get_paper_identifier` (src/pipeline.py, lines
53-56): the final path component without its suffix, where the suffix starts
at the last dot whose position `i` satisfies `0 < i < len(name) - 1`. -/
def path_stem (p : Str) : Str :=
  let name := (p.splitOn '/').getLastD p
  let cut := (List.range name.length).foldl
    (fun acc j =>
      if 0 < j ∧ j + 1 < name.length ∧ name[j]? = some '.' then some j else acc)
    none
  match cut with
  | some j => name.take j
  | none => name

/-- The research analysis outcome (`research_data` in src/pipeline.py):
whether the dictionary has an `error` key, its `paper_title`, and its scene
list (scenes themselves are opaque `S`). -/
structure ResearchData (S : Type) where
  hasErrorKey : Bool
  paperTitle : Option Str
  scenes : List S

/-- The outcome dictionary returned by `process_paper`: each optional field
is present on some return paths and absent (`none`) on others, exactly as the
corresponding dictionary key is. -/
structure RunSummary where
  success : Bool
  cached : Option Bool
  paperTitle : Option Str
  finalVideo : Option Str
  videoUrl : Option Str
  totalScenes : Option Nat
  successfulRenders : Option Nat
  failedRenders : Option Nat
  error : Option Str

/-- Which collaborators a `process_paper` run invoked. -/
structure PipelineTrace where
  researchCalled : Bool := false
  animateCalled : Bool := false
  voiceCalled : Bool := false
  composeCalled : Bool := false
  stitchCalled : Bool := false
  uploadCalled : Bool := false
  downloadCalled : Bool := false

/-- The orchestrator's collaborators and parameters.  `checkCache` is
`self.cache.check_cache`, `downloadCachedVideo` is
`self.cache.download_cached_video`, `uploadVideo` is
`self.cache.upload_video` (returning `(success, video_url)`), `metaTitle`
models `cached_metadata.get("paper_title")`, `research` is
`self.researcher.analyze_paper`, `animateConcurrent` and `generateAnimation`
are the animator entry points, `generateAllVoiceovers` is
`self.voiceover.generate_all_voiceovers`, `composeFullVideo` and
`stitchVideos` are the composer entry points, `finalVideoExists` is
`final_video.exists()`.  Oracles that can raise return `Except`. -/
structure PipelineEnv (S C M : Type) where
  useCache : Bool
  includeVoiceover : Bool
  concurrentGeneration : Bool
  scenesToGenerate : Option (List Nat)
  sectionPause : ℚ
  checkCache : Str → Bool × Option Str × Option M
  downloadCachedVideo : Str → Option Str
  metaTitle : M → Option Str
  research : Except PyErr (ResearchData S)
  animateConcurrent : List S → Except PyErr (List (Option C × Option Str))
  generateAnimation : S → Nat → Except PyErr (Option C × Option Str)
  generateAllVoiceovers : List S → Except PyErr (List Str)
  composeFullVideo : List Str → List Str → ℚ → Except PyErr Str
  stitchVideos : List Str → Except PyErr Str
  finalVideoExists : Str → Bool
  uploadVideo : Str → Str → Bool × Option Str

/-- Step 0 of `process_paper` (src/pipeline.py, lines 94-114): when
`use_cache` holds, call `check_cache`; the run short-circuits when `cached`
is true and `cached_url` is truthy. -/
def cache_hit_step {S C M : Type} (env : PipelineEnv S C M) (paper_identifier : Str) :
    Option (Str × Option M) :=
  if env.useCache then
    match env.checkCache paper_identifier with
    | (cached, some u, md) => if cached && !u.isEmpty then some (u, md) else none
    | (_, none, _) => none
  else none

/-- `scenes = [s for i, s in enumerate(scenes) if i in scenes_to_generate]`
(src/pipeline.py, lines 132-133). -/
def selected_scenes {S : Type} (scenesToGenerate : Option (List Nat)) (scenes : List S) :
    List S :=
  match scenesToGenerate with
  | some idxs => (scenes.enum.filter (fun p => idxs.contains p.1)).map Prod.snd
  | none => scenes

/-- Step 2 of `process_paper` (src/pipeline.py, lines 138-144): concurrent
generation, or a sequential loop over `enumerate(scenes)`. -/
def animation_stage {S C M : Type} (env : PipelineEnv S C M) (scenes : List S) :
    Except PyErr (List (Option C × Option Str)) :=
  if env.concurrentGeneration then env.animateConcurrent scenes
  else scenes.enum.mapM (fun p => env.generateAnimation p.2 p.1)

/-- Python list indexing: `l[i]` raises `IndexError` when out of range. -/
def py_list_get {α : Type} (l : List α) (i : Nat) : Except PyErr α :=
  match l[i]? with
  | some x => .ok x
  | none => .error .indexError

/-- `successful_scenes = [scenes[i] for i, (_, vp) in
enumerate(animation_results) if vp]` (src/pipeline.py, line 156). -/
def select_successful_scenes {S C : Type} (scenes : List S)
    (animation_results : List (Option C × Option Str)) : Except PyErr (List S) :=
  (animation_results.enum.filter (fun p => p.2.2.isSome)).mapM
    (fun p => py_list_get scenes p.1)

/-- `ResearchToAnimationPipeline._create_summary` (src/pipeline.py, lines
236-255): a successful, uncached run summary; `video_url` is included only
when truthy. -/
def create_summary {C : Type} (research_title : Option Str)
    (animation_results : List (Option C × Option Str)) (final_video : Str)
    (video_url : Option Str) : RunSummary :=
  let successful := (animation_results.filter (fun r => r.2.isSome)).length
  { success := true
    cached := some false
    paperTitle := some (research_title.getD "Unknown".toList)
    finalVideo := some final_video
    videoUrl := if truthyStr video_url then video_url else none
    totalScenes := some animation_results.length
    successfulRenders := some successful
    failedRenders := some (animation_results.length - successful)
    error := none }

/-- Step 5 of `process_paper` (src/pipeline.py, lines 183-213): upload when
`use_cache` holds and the final video file exists (taking `video_url` from
the upload result whether or not it succeeded), else `video_url = None`;
then build and return the summary. -/
def finish_run {S C M : Type} (env : PipelineEnv S C M) (paper_identifier : Str)
    (research_title : Option Str) (animation_results : List (Option C × Option Str))
    (final_video : Str) (tr : PipelineTrace) : Except PyErr RunSummary × PipelineTrace :=
  if env.useCache && env.finalVideoExists final_video then
    (.ok (create_summary research_title animation_results final_video
        (env.uploadVideo final_video paper_identifier).2),
      { tr with uploadCalled := true })
  else
    (.ok (create_summary research_title animation_results final_video none), tr)

/-- `ResearchToAnimationPipeline.process_paper` (src/pipeline.py, lines
58-213).  Returns the outcome (or the uncaught exception, since the method
body has no try/except of its own) together with the trace of invoked
collaborators. -/
def process_paper {S C M : Type} (env : PipelineEnv S C M) (pdf_path : Str) :
    Except PyErr RunSummary × PipelineTrace :=
  let paper_identifier := path_stem pdf_path
  match cache_hit_step env paper_identifier with
  | some (cachedUrl, cachedMetadata) =>
    let localCached := env.downloadCachedVideo paper_identifier
    (.ok { success := true
           cached := some true
           paperTitle := some
             (match cachedMetadata with
              | some m => (env.metaTitle m).getD paper_identifier
              | none => paper_identifier)
           finalVideo := some (localCached.getD cachedUrl)
           videoUrl := some cachedUrl
           totalScenes := none
           successfulRenders := none
           failedRenders := none
           error := none },
     { downloadCalled := true })
  | none =>
    match env.research with
    | .error e => (.error e, { researchCalled := true })
    | .ok researchData =>
      if researchData.hasErrorKey || researchData.scenes.isEmpty then
        (.ok { success := false, cached := none, paperTitle := none, finalVideo := none,
               videoUrl := none, totalScenes := none, successfulRenders := none,
               failedRenders := none, error := some "Research extraction failed".toList },
         { researchCalled := true })
      else
        let scenes := selected_scenes env.scenesToGenerate researchData.scenes
        match animation_stage env scenes with
        | .error e => (.error e, { researchCalled := true, animateCalled := true })
        | .ok animationResults =>
          let videoPaths := animationResults.filterMap Prod.snd
          if videoPaths.isEmpty then
            (.ok { success := false, cached := none, paperTitle := none, finalVideo := none,
                   videoUrl := none, totalScenes := none, successfulRenders := none,
                   failedRenders := none,
                   error := some "Animation generation failed".toList },
             { researchCalled := true, animateCalled := true })
          else
            if env.includeVoiceover then
              match select_successful_scenes scenes animationResults with
              | .error e => (.error e, { researchCalled := true, animateCalled := true })
              | .ok successfulScenes =>
                match env.generateAllVoiceovers successfulScenes with
                | .error e =>
                  (.error e,
                   { researchCalled := true, animateCalled := true, voiceCalled := true })
                | .ok audioPaths =>
                  match env.composeFullVideo videoPaths audioPaths env.sectionPause with
                  | .error e =>
                    (.error e,
                     { researchCalled := true, animateCalled := true, voiceCalled := true,
                       composeCalled := true })
                  | .ok finalVideo =>
                    finish_run env paper_identifier researchData.paperTitle animationResults
                      finalVideo
                      { researchCalled := true, animateCalled := true, voiceCalled := true,
                        composeCalled := true }
            else
              match env.stitchVideos videoPaths with
              | .error e =>
                (.error e,
                 { researchCalled := true, animateCalled := true, stitchCalled := true })
              | .ok finalVideo =>
                finish_run env paper_identifier researchData.paperTitle animationResults
                  finalVideo
                  { researchCalled := true, animateCalled := true, stitchCalled := true }

/-- A concrete environment whose researcher raises a connection error (for
example, `files.upload` failing inside `GeminiResearcher.analyze_paper`). -/
def boom_env : PipelineEnv Unit Unit Unit where
  useCache := false
  includeVoiceover := true
  concurrentGeneration := true
  scenesToGenerate := none
  sectionPause := 2
  checkCache := fun _ => (false, none, none)
  downloadCachedVideo := fun _ => none
  metaTitle := fun _ => none
  research := .error (.exception "connection error".toList)
  animateConcurrent := fun _ => .ok []
  generateAnimation := fun _ _ => .ok (none, none)
  generateAllVoiceovers := fun _ => .ok []
  composeFullVideo := fun _ _ _ => .ok []
  stitchVideos := fun _ => .ok []
  finalVideoExists := fun _ => false
  uploadVideo := fun _ _ => (false, none)

/-- A concrete environment with one scene whose generation fails. -/
def zero_success_env : PipelineEnv Unit Unit Unit :=
  { boom_env with
    research := .ok { hasErrorKey := false, paperTitle := none, scenes := [()] }
    animateConcurrent := fun _ => .ok [(none, none)] }

/-- A concrete environment with two scenes: the first renders, the second
fails; voiceover and composition succeed. -/
def partial_success_env : PipelineEnv Unit Unit Unit :=
  { boom_env with
    research := .ok { hasErrorKey := false, paperTitle := none, scenes := [(), ()] }
    animateConcurrent := fun _ => .ok [(none, some "v0.mp4".toList), (none, none)]
    generateAllVoiceovers := fun _ => .ok ["a0.mp3".toList]
    composeFullVideo := fun _ _ _ => .ok "final_video.mp4".toList }

/-! ## Theorems -/

/-! ### Generic fan-in lemmas: a fold of `List.set` writes over an arbitrary
completion order, where each written value is determined by the job key. -/

/-- The slot-assignment fold never changes the length of the result list. -/
theorem foldl_set_length {α β : Type} (key : β → Nat) (val : β → α)
    (completed : List β) (acc : List (Option α)) :
    (completed.foldl (fun a b => a.set (key b) (some (val b))) acc).length = acc.length := by
  induction completed generalizing acc with
  | nil => rfl
  | cons c cs ih => rw [List.foldl_cons, ih, List.length_set]

/-- A slot no completed job writes to keeps its previous contents. -/
theorem foldl_set_get_of_not_written {α β : Type} (key : β → Nat) (val : β → α)
    (completed : List β) (acc : List (Option α)) (i : Nat)
    (h : ∀ b ∈ completed, key b ≠ i) :
    (completed.foldl (fun a b => a.set (key b) (some (val b))) acc)[i]? = acc[i]? := by
  induction completed generalizing acc with
  | nil => rfl
  | cons c cs ih =>
    rw [List.foldl_cons, ih _ (fun b hb => h b (List.mem_cons_of_mem _ hb))]
    exact List.getElem?_set_ne (h c (List.mem_cons_self ..))

/-- If some completed job writes slot `i`, and every job writing slot `i`
writes the same value `v`, then slot `i` of the assembled list holds `v`. -/
theorem foldl_set_get_of_written {α β : Type} (key : β → Nat) (val : β → α)
    (completed : List β) (acc : List (Option α)) (i : Nat) (v : α)
    (hlen : i < acc.length)
    (hex : ∃ b ∈ completed, key b = i)
    (huniq : ∀ b ∈ completed, key b = i → val b = v) :
    (completed.foldl (fun a b => a.set (key b) (some (val b))) acc)[i]? = some (some v) := by
  induction completed generalizing acc with
  | nil => obtain ⟨b, hb, _⟩ := hex; cases hb
  | cons c cs ih =>
    rw [List.foldl_cons]
    by_cases hcs : ∃ b ∈ cs, key b = i
    · exact ih _ (by rw [List.length_set]; exact hlen) hcs
        (fun b hb hk => huniq b (List.mem_cons_of_mem _ hb) hk)
    · have hc : key c = i := by
        obtain ⟨b, hb, hk⟩ := hex
        rcases List.mem_cons.mp hb with rfl | hb2
        · exact hk
        · exact absurd ⟨b, hb2, hk⟩ hcs
      rw [foldl_set_get_of_not_written key val cs _ i (fun b hb hk => hcs ⟨b, hb, hk⟩), hc,
        List.getElem?_set_self hlen, huniq c (List.mem_cons_self ..) hc]

/-! ### Claim C1 -/

/-- Claim C1: for every list of scenes and every order in which concurrent
workers complete, each stage's assembled output (animation results, voiceover
paths, combined per-scene segments) has the result of the job submitted at
index `i` stored in slot `i`, so the sequence handed to the next stage is in
scene-index order, not completion order. -/
theorem C1_results_assembled_in_scene_index_order :
    (∀ (S C : Type) (gen : S → Nat → Option C × Option Str)
        (scenes : List S) (completed : List (Nat × S)),
      completed.Perm scenes.enum →
      ∀ i s, scenes[i]? = some s →
        (generate_animations_concurrent gen scenes completed)[i]? = some (some (gen s i))) ∧
    (∀ (S : Type) (gen : S → Nat → Str)
        (scenes : List S) (completed : List (Nat × S)),
      completed.Perm scenes.enum →
      ∀ i s, scenes[i]? = some s →
        (generate_voiceovers_concurrent gen scenes completed)[i]? = some (some (gen s i))) ∧
    (∀ (combine_single : Nat → Str) (n : Nat) (completed : List Nat),
      completed.Perm (List.range n) →
      ∀ i, i < n →
        (combine_videos_concurrent combine_single n completed)[i]? = some (some (combine_single i))) := by
  refine ⟨?_, ?_, ?_⟩
  · intro S C gen scenes completed hperm i s hs
    have hi : i < scenes.length := by
      have := List.getElem?_eq_some.mp hs
      exact this.1
    exact foldl_set_get_of_written Prod.fst (fun b => gen b.2 b.1) completed _ i (gen s i)
      (by rw [List.length_replicate]; exact hi)
      ⟨(i, s), hperm.mem_iff.mpr (List.mk_mem_enum_iff_getElem?.mpr hs), rfl⟩
      (by
        rintro ⟨j, t⟩ hb rfl
        have ht := List.mk_mem_enum_iff_getElem?.mp (hperm.mem_iff.mp hb)
        rw [hs] at ht
        cases ht
        rfl)
  · intro S gen scenes completed hperm i s hs
    have hi : i < scenes.length := by
      have := List.getElem?_eq_some.mp hs
      exact this.1
    exact foldl_set_get_of_written Prod.fst (fun b => gen b.2 b.1) completed _ i (gen s i)
      (by rw [List.length_replicate]; exact hi)
      ⟨(i, s), hperm.mem_iff.mpr (List.mk_mem_enum_iff_getElem?.mpr hs), rfl⟩
      (by
        rintro ⟨j, t⟩ hb rfl
        have ht := List.mk_mem_enum_iff_getElem?.mp (hperm.mem_iff.mp hb)
        rw [hs] at ht
        cases ht
        rfl)
  · intro combine_single n completed hperm i hi
    exact foldl_set_get_of_written (fun b => b) combine_single completed _ i (combine_single i)
      (by rw [List.length_replicate]; exact hi)
      ⟨i, hperm.mem_iff.mpr (List.mem_range.mpr hi), rfl⟩
      (by rintro b hb rfl; rfl)

/-- Claim C1, concrete witness: two scenes completing in reversed order still
land in scene-index order in all three stages. -/
theorem C1_results_assembled_in_scene_index_order_witness :
    (generate_animations_concurrent (fun (s i : Nat) => (some s, some [Char.ofNat i])) [10, 20]
        [(1, 20), (0, 10)])[0]? = some (some (some 10, some [Char.ofNat 0])) ∧
    (generate_voiceovers_concurrent (fun (s i : Nat) => [Char.ofNat (s + i)]) [10, 20]
        [(1, 20), (0, 10)])[1]? = some (some [Char.ofNat 21]) ∧
    (combine_videos_concurrent (fun i => [Char.ofNat i]) 2 [1, 0])[0]? = some (some [Char.ofNat 0]) :=
  ⟨C1_results_assembled_in_scene_index_order.1 Nat Nat _ [10, 20] [(1, 20), (0, 10)]
      (by decide) 0 10 (by decide),
    C1_results_assembled_in_scene_index_order.2.1 Nat _ [10, 20] [(1, 20), (0, 10)]
      (by decide) 1 20 (by decide),
    C1_results_assembled_in_scene_index_order.2.2 _ 2 [1, 0] (by decide) 0 (by decide)⟩

/-! ### Claim C3 -/

/-- Claim C3, counterexample: with the MCP animator, a scene whose render
always fails (here: the one render call made times out, and the assistant's
next response carries no tool call) terminates after two iterations, not
after `max_iterations = 5`: the loop breaks as soon as `stop_reason` is not
`tool_use` (src/claude_mcp_animator.py, line 213). -/
theorem C3_exactly_max_attempts_counterexample :
    mcpRendersAlwaysFail mcpTurnsGiveUp ∧
    (mcp_generate_animation mcpTurnsGiveUp).2.2 = 2 ∧
    (mcp_generate_animation mcpTurnsGiveUp).2.2 ≠ max_iterations := by
  refine ⟨?_, by decide, by decide⟩
  intro i b hb
  unfold mcpTurnsGiveUp at hb
  by_cases hi : i = 0
  · rw [if_pos hi] at hb
    simp only [List.mem_singleton] at hb
    subst hb
    rfl
  · rw [if_neg hi] at hb
    simp at hb

/-- If no block of the list is a successful render, processing the tool
blocks never sets `video_path`. -/
theorem process_tool_blocks_no_path (blocks : List MCPBlock) (code : Option Str)
    (h : ∀ b ∈ blocks, b.noSuccessfulRender = true) :
    (process_tool_blocks blocks code none).2 = none := by
  unfold process_tool_blocks
  induction blocks generalizing code with
  | nil => rfl
  | cons b bs ih =>
    rw [List.foldl_cons]
    have hb := h b (List.mem_cons_self ..)
    have hbs := fun c hc => h c (List.mem_cons_of_mem _ hc)
    match b with
    | .renderCall c outcome =>
      simp only [MCPBlock.noSuccessfulRender, Bool.not_eq_true'] at hb
      simp only [hb, Bool.false_eq_true, if_false]
      exact ih code hbs
    | .validateCall => exact ih code hbs
    | .docsCall => exact ih code hbs
    | .textBlock e => exact ih code hbs

/-- The MCP loop executes at most as many iterations as its fuel allows. -/
theorem mcp_loop_iterations_le (turns : Nat → MCPTurn) :
    ∀ (fuel iter : Nat) (code videoPath : Option Str),
      (mcp_generate_animation_loop turns fuel iter code videoPath).2.2 ≤ iter + fuel := by
  intro fuel
  induction fuel with
  | zero => intro iter code videoPath; simp [mcp_generate_animation_loop]
  | succ f ih =>
    intro iter code videoPath
    unfold mcp_generate_animation_loop
    cases hturn : turns iter with
    | toolUse blocks =>
      dsimp only
      rcases hp : process_tool_blocks blocks code videoPath with ⟨c2, p2⟩
      cases p2 with
      | some p => dsimp only; omega
      | none =>
        dsimp only
        have := ih (iter + 1) c2 none
        omega
    | final blocks => dsimp only; omega

/-- When every render fails, the MCP loop can never acquire a video path,
whether or not the assistant keeps calling tools. -/
theorem mcp_loop_no_success_no_path (turns : Nat → MCPTurn)
    (hfail : mcpRendersAlwaysFail turns) :
    ∀ (fuel iter : Nat) (code : Option Str),
      (mcp_generate_animation_loop turns fuel iter code none).2.1 = none := by
  intro fuel
  induction fuel with
  | zero => intro iter code; simp [mcp_generate_animation_loop]
  | succ f ih =>
    intro iter code
    unfold mcp_generate_animation_loop
    cases hturn : turns iter with
    | toolUse blocks =>
      have hfb : ∀ b ∈ blocks, b.noSuccessfulRender = true := by
        have := hfail iter
        rw [hturn] at this
        exact this
      have hpath : (process_tool_blocks blocks code none).2 = none :=
        process_tool_blocks_no_path blocks code hfb
      dsimp only
      rcases hp : process_tool_blocks blocks code none with ⟨c2, p2⟩
      rw [hp] at hpath
      cases p2 with
      | some p => cases hpath
      | none => exact ih (iter + 1) c2
    | final blocks => rfl

/-- When every turn is a tool-use turn whose renders all fail, the MCP loop
consumes all its fuel and ends with a null video path. -/
theorem mcp_loop_all_failing (turns : Nat → MCPTurn)
    (hfail : mcpRendersAlwaysFail turns)
    (htool : ∀ i, ∃ blocks, turns i = .toolUse blocks) :
    ∀ (fuel iter : Nat) (code : Option Str),
      (mcp_generate_animation_loop turns fuel iter code none).2.1 = none ∧
      (mcp_generate_animation_loop turns fuel iter code none).2.2 = iter + fuel := by
  intro fuel
  induction fuel with
  | zero => intro iter code; simp [mcp_generate_animation_loop]
  | succ f ih =>
    intro iter code
    obtain ⟨blocks, hblocks⟩ := htool iter
    have hfb : ∀ b ∈ blocks, b.noSuccessfulRender = true := by
      have := hfail iter
      rw [hblocks] at this
      exact this
    have hpath : (process_tool_blocks blocks code none).2 = none :=
      process_tool_blocks_no_path blocks code hfb
    unfold mcp_generate_animation_loop
    rw [hblocks]
    dsimp only
    rcases hp : process_tool_blocks blocks code none with ⟨c2, p2⟩
    rw [hp] at hpath
    cases p2 with
    | some p => cases hpath
    | none =>
      dsimp only
      refine ⟨(ih (iter + 1) c2).1, ?_⟩
      rw [(ih (iter + 1) c2).2]
      omega

/-- When every render fails, the plain animator's loop consumes all its fuel,
executing one attempt per fuel unit, and ends with a null video path. -/
theorem plain_loop_all_failing (respond : Nat → Option Str) (render : Nat → Str → Bool × Str)
    (hfail : ∀ attempt c, (render attempt c).1 = false) :
    ∀ (fuel attempt : Nat) (code lastError : Option Str),
      (plain_generate_animation_loop respond render fuel attempt code lastError).2.1 = none ∧
      (plain_generate_animation_loop respond render fuel attempt code lastError).2.2 =
        attempt + fuel := by
  intro fuel
  induction fuel with
  | zero => intro attempt code lastError; simp [plain_generate_animation_loop]
  | succ f ih =>
    intro attempt code lastError
    unfold plain_generate_animation_loop
    cases respond attempt with
    | none =>
      dsimp only
      refine ⟨(ih (attempt + 1) none lastError).1, ?_⟩
      rw [(ih (attempt + 1) none lastError).2]
      omega
    | some c =>
      have hf := hfail attempt c
      dsimp only
      rcases hr : render attempt c with ⟨s, result⟩
      rw [hr] at hf
      cases s with
      | true => cases hf
      | false =>
        dsimp only
        refine ⟨(ih (attempt + 1) (some c) (some result)).1, ?_⟩
        rw [(ih (attempt + 1) (some c) (some result)).2]
        omega

/-- Claim C3, amended: a worker whose render always fails never loops
indefinitely and returns a null video path in both animators; the plain
animator (`ClaudeAnimator`) runs exactly `max_retries = 3` attempts; the MCP
animator (`ClaudeMCPAnimator`) never exceeds `max_iterations = 5` iterations,
and runs exactly 5 provided the assistant keeps responding with tool calls
(it stops early when the assistant stops calling tools). -/
theorem C3_bounded_retry_amended :
    (∀ (respond : Nat → Option Str) (render : Nat → Str → Bool × Str),
      (∀ attempt c, (render attempt c).1 = false) →
        (plain_generate_animation respond render).2.1 = none ∧
        (plain_generate_animation respond render).2.2 = max_retries) ∧
    (∀ turns : Nat → MCPTurn,
      (mcp_generate_animation turns).2.2 ≤ max_iterations ∧
      (mcpRendersAlwaysFail turns → (mcp_generate_animation turns).2.1 = none)) ∧
    (∀ turns : Nat → MCPTurn,
      mcpRendersAlwaysFail turns → (∀ i, ∃ blocks, turns i = .toolUse blocks) →
        (mcp_generate_animation turns).2.1 = none ∧
        (mcp_generate_animation turns).2.2 = max_iterations) := by
  refine ⟨?_, ?_, ?_⟩
  · intro respond render hfail
    exact plain_loop_all_failing respond render hfail max_retries 0 none none
  · intro turns
    constructor
    · exact mcp_loop_iterations_le turns max_iterations 0 none none
    · intro hfail
      exact mcp_loop_no_success_no_path turns hfail max_iterations 0 none
  · intro turns hfail htool
    exact mcp_loop_all_failing turns hfail htool max_iterations 0 none

/-- Claim C3, witness for the amended theorem: a renderer that always fails
yields exactly 3 attempts in the plain animator, and an always-tool-calling
assistant with failing renders yields exactly 5 iterations in the MCP loop. -/
theorem C3_bounded_retry_amended_witness :
    (plain_generate_animation (fun _ => some ['x']) (fun _ _ => (false, ['e']))).2.1 = none ∧
    (plain_generate_animation (fun _ => some ['x']) (fun _ _ => (false, ['e']))).2.2 = max_retries ∧
    (mcp_generate_animation (fun _ => .toolUse [.renderCall ['x'] .timeout])).2.1 = none ∧
    (mcp_generate_animation (fun _ => .toolUse [.renderCall ['x'] .timeout])).2.2 = max_iterations :=
  ⟨(C3_bounded_retry_amended.1 (fun _ => some ['x']) (fun _ _ => (false, ['e']))
      (fun _ _ => rfl)).1,
    (C3_bounded_retry_amended.1 (fun _ => some ['x']) (fun _ _ => (false, ['e']))
      (fun _ _ => rfl)).2,
    (C3_bounded_retry_amended.2.2 (fun _ => .toolUse [.renderCall ['x'] .timeout])
      (by intro i b hb; simp at hb; subst hb; rfl)
      (fun i => ⟨[.renderCall ['x'] .timeout], rfl⟩)).1,
    (C3_bounded_retry_amended.2.2 (fun _ => .toolUse [.renderCall ['x'] .timeout])
      (by intro i b hb; simp at hb; subst hb; rfl)
      (fun i => ⟨[.renderCall ['x'] .timeout], rfl⟩)).2⟩

/-! ### Claim C4 -/

/-- Claim C4: the composed segment's target duration is `Da + p` for every
scene but the last one (so `Da = 7.0`, `p = 2.0` gives `9.0`), and `Da + 0.5`
for the last scene; for a nonnegative configured pause the target is never
less than the narration duration. -/
theorem C4_scene_target_duration (Da p : ℚ) (i n : Nat) (hp : 0 ≤ p) :
    (i < n - 1 → scene_target_duration Da p i n = Da + p) ∧
    (i = n - 1 → scene_target_duration Da p i n = Da + 1/2) ∧
    Da ≤ scene_target_duration Da p i n := by
  refine ⟨fun h => ?_, fun h => ?_, ?_⟩
  · simp [scene_target_duration, combine_video_audio_target, combine_single_end_pause, h]
  · have hn : ¬ i < n - 1 := by omega
    simp [scene_target_duration, combine_video_audio_target, combine_single_end_pause, hn]
  · by_cases h : i < n - 1
    · simp only [scene_target_duration, combine_video_audio_target,
        combine_single_end_pause, if_pos h]
      linarith
    · simp only [scene_target_duration, combine_video_audio_target,
        combine_single_end_pause, if_neg h]
      linarith

/-- Claim C4, witness: with two scenes, `Da = 7`, `p = 2`, scene 0 gets target
`9` and the last scene gets target `7.5`; both are at least `Da`. -/
theorem C4_scene_target_duration_witness :
    scene_target_duration 7 2 0 2 = 9 ∧
    scene_target_duration 7 2 1 2 = 7 + 1/2 ∧
    (7 : ℚ) ≤ scene_target_duration 7 2 0 2 :=
  ⟨by rw [(C4_scene_target_duration 7 2 0 2 (by norm_num)).1 (by norm_num)]; norm_num,
    (C4_scene_target_duration 7 2 1 2 (by norm_num)).2.1 (by norm_num),
    (C4_scene_target_duration 7 2 0 2 (by norm_num)).2.2⟩

/-! ### Claim C5 -/

/-- Claim C5, counterexample: a 10-second clip extended to a 5-second target
is truncated to 5 seconds by the `-t target_duration` re-encode branch, so
the output is shorter than the original clip, contradicting the claim that
the extended clip's duration is always at least the original clip's
duration. -/
theorem C5_never_truncates_counterexample :
    extend_video_output_duration 10 5 = 5 ∧ extend_video_output_duration 10 5 < 10 := by
  constructor <;>
    norm_num [extend_video_output_duration, extend_video_hold_duration]

/-- Claim C5, amended: the composer never speeds up the clip and the output
is never shorter than the target (hence never shorter than the narration);
a clip shorter than `target + 0.1` is extended by holding the final frame to
exactly `target + 0.1`, which is at least the original duration; but a clip
at least `0.1` seconds longer than the target is truncated to exactly the
target, so the output can be shorter than the original clip. -/
theorem C5_extend_video_amended (Dv t : ℚ) :
    t ≤ extend_video_output_duration Dv t ∧
    (Dv < t + 1/10 →
      extend_video_output_duration Dv t = t + 1/10 ∧ Dv ≤ extend_video_output_duration Dv t) ∧
    (t + 1/10 ≤ Dv → extend_video_output_duration Dv t = t) := by
  by_cases h : Dv < t + 1/10
  · have hx : (0 : ℚ) < t - Dv + 1/10 := by linarith
    have hmax : extend_video_hold_duration t Dv = t - Dv + 1/10 :=
      max_eq_right (le_of_lt hx)
    have hout : extend_video_output_duration Dv t = t + 1/10 := by
      rw [extend_video_output_duration, hmax, if_pos hx]
      ring
    refine ⟨by rw [hout]; linarith, fun _ => ⟨hout, by rw [hout]; linarith⟩, fun h2 => ?_⟩
    linarith
  · have h2 : t + 1/10 ≤ Dv := le_of_not_lt h
    have hmax : extend_video_hold_duration t Dv = 0 :=
      max_eq_left (by linarith)
    have hout : extend_video_output_duration Dv t = t := by
      rw [extend_video_output_duration, hmax, if_neg (lt_irrefl 0)]
      exact min_eq_right (by linarith)
    exact ⟨le_of_eq hout.symm, fun hlt => absurd hlt h, fun _ => hout⟩

/-- Claim C5, witness for the amended theorem: a 3-second clip with a
7-second target is extended to 7.1 seconds (at least both the target and the
original), and a 10-second clip with a 5-second target is cut at 5. -/
theorem C5_extend_video_amended_witness :
    extend_video_output_duration 3 7 = 7 + 1/10 ∧
    (3 : ℚ) ≤ extend_video_output_duration 3 7 ∧
    (7 : ℚ) ≤ extend_video_output_duration 3 7 ∧
    extend_video_output_duration 10 5 = 5 :=
  ⟨((C5_extend_video_amended 3 7).2.1 (by norm_num)).1,
    ((C5_extend_video_amended 3 7).2.1 (by norm_num)).2,
    (C5_extend_video_amended 3 7).1,
    (C5_extend_video_amended 10 5).2.2 (by norm_num)⟩

/-! ### Claim C10 -/

/-- Claim C10: whenever the video and audio lists have different lengths,
`compose_full_video` raises a `ValueError` reporting the two lengths, and no
per-scene combination is invoked. -/
theorem C10_length_mismatch_raises (combine_single : Nat → Str)
    (stitch_videos : List (Option Str) → Except PyErr Str)
    (video_paths audio_paths : List Str) (concurrent : Bool) (completed : List Nat)
    (h : video_paths.length ≠ audio_paths.length) :
    compose_full_video combine_single stitch_videos video_paths audio_paths concurrent completed =
      (.error (.valueError (mismatch_message video_paths.length audio_paths.length)), []) := by
  rw [compose_full_video, if_pos h]

/-- Claim C10, witness: one video and zero audio files raise the mismatch
error with no combination performed. -/
theorem C10_length_mismatch_raises_witness :
    compose_full_video (fun _ => []) (fun _ => .ok []) [['v']] [] true [0] =
      (.error (.valueError (mismatch_message 1 0)), []) :=
  C10_length_mismatch_raises (fun _ => []) (fun _ => .ok []) [['v']] [] true [0] (by decide)

/-! ### Claim C8 -/

/-- Claim C8, counterexample: the identifiers `a.arxiv.pdf` and `a.arxiv.abs`
are equal after lower-casing, stripping whitespace and removing one trailing
suffix (both give `a.arxiv`), yet the code's sequential suffix loop
normalizes them to `a` and `a.arxiv` respectively (stripping `.pdf` exposes
`.arxiv`, which the loop then also strips), so their hashes are the digests
of different strings and differ for every digest that separates them —
already for the identity digest. -/
theorem C8_normalized_identity_counterexample :
    claim_normalize "a.arxiv.pdf".toList = claim_normalize "a.arxiv.abs".toList ∧
    normalize_identifier "a.arxiv.pdf".toList = "a".toList ∧
    normalize_identifier "a.arxiv.abs".toList = "a.arxiv".toList ∧
    ¬ ∀ digest : Str → Str,
        generate_paper_hash digest "a.arxiv.pdf".toList =
          generate_paper_hash digest "a.arxiv.abs".toList :=
  ⟨by decide, by decide, by decide, fun h => absurd (h (fun s => s)) (by decide)⟩

/-- Claim C8, amended: the cache identity is a deterministic function of the
code's normalized identifier, where normalization lower-cases, strips
surrounding whitespace and then removes trailing suffixes checked once each
in the order `.pdf`, `.arxiv`, `.abs`; any two identifiers with the same
normalized form get the identical hash and hence identical video and
metadata storage paths, addressing the same cache entry. -/
theorem C8_cache_identity_amended (digest : Str → Str) (id1 id2 : Str)
    (h : normalize_identifier id1 = normalize_identifier id2) :
    generate_paper_hash digest id1 = generate_paper_hash digest id2 ∧
    get_video_path (generate_paper_hash digest id1) =
      get_video_path (generate_paper_hash digest id2) ∧
    get_metadata_path (generate_paper_hash digest id1) =
      get_metadata_path (generate_paper_hash digest id2) := by
  have hh : generate_paper_hash digest id1 = generate_paper_hash digest id2 := by
    unfold generate_paper_hash
    rw [h]
  exact ⟨hh, by rw [hh], by rw [hh]⟩

/-- Claim C8, witness for the amended theorem: `Paper.PDF` and a
whitespace-padded `paper` normalize identically, so they share the hash and
the video storage path. -/
theorem C8_cache_identity_amended_witness :
    generate_paper_hash (fun s => s) "Paper.PDF".toList =
      generate_paper_hash (fun s => s) "  paper  ".toList ∧
    get_video_path (generate_paper_hash (fun s => s) "Paper.PDF".toList) =
      get_video_path (generate_paper_hash (fun s => s) "  paper  ".toList) :=
  ⟨(C8_cache_identity_amended (fun s => s) _ _ (by decide)).1,
    (C8_cache_identity_amended (fun s => s) _ _ (by decide)).2.1⟩

/-! ### Pipeline helper lemmas -/

/-- `finish_run` preserves the `researchCalled` flag of the trace. -/
theorem finish_run_researchCalled {S C M : Type} (env : PipelineEnv S C M) (pid : Str)
    (title : Option Str) (ar : List (Option C × Option Str)) (fv : Str) (tr : PipelineTrace) :
    (finish_run env pid title ar fv tr).2.researchCalled = tr.researchCalled := by
  unfold finish_run
  split <;> rfl

/-- After a cache miss, `process_paper` always invokes the researcher. -/
theorem process_paper_proceeds_on_miss {S C M : Type} (env : PipelineEnv S C M) (pdf_path : Str)
    (hmiss : cache_hit_step env (path_stem pdf_path) = none) :
    (process_paper env pdf_path).2.researchCalled = true := by
  unfold process_paper
  simp only [hmiss]
  cases env.research with
  | error e => rfl
  | ok rd =>
    dsimp only
    by_cases hkey : (rd.hasErrorKey || rd.scenes.isEmpty) = true
    · rw [if_pos hkey]
    · rw [if_neg hkey]
      cases animation_stage env (selected_scenes env.scenesToGenerate rd.scenes) with
      | error e => rfl
      | ok ar =>
        dsimp only
        by_cases hvp : (ar.filterMap Prod.snd).isEmpty = true
        · rw [if_pos hvp]
        · rw [if_neg hvp]
          by_cases hvo : env.includeVoiceover = true
          · rw [if_pos hvo]
            cases select_successful_scenes (selected_scenes env.scenesToGenerate rd.scenes) ar with
            | error e => rfl
            | ok ss =>
              dsimp only
              cases env.generateAllVoiceovers ss with
              | error e => rfl
              | ok audio =>
                dsimp only
                cases env.composeFullVideo (ar.filterMap Prod.snd) audio env.sectionPause with
                | error e => rfl
                | ok fv => exact finish_run_researchCalled ..
          · rw [if_neg hvo]
            cases env.stitchVideos (ar.filterMap Prod.snd) with
            | error e => rfl
            | ok fv => exact finish_run_researchCalled ..

/-- The happy voiceover path of `process_paper`: a cache miss followed by
successful research, a generation stage with at least one rendered scene,
successful voiceovers and successful composition reaches step 5. -/
theorem process_paper_happy_voiceover {S C M : Type} (env : PipelineEnv S C M) (pdf_path : Str)
    (researchData : ResearchData S) (animationResults : List (Option C × Option Str))
    (successfulScenes : List S) (audio : List Str) (finalVideo : Str)
    (hmiss : cache_hit_step env (path_stem pdf_path) = none)
    (hres : env.research = .ok researchData)
    (hkey : researchData.hasErrorKey = false)
    (hnonempty : researchData.scenes.isEmpty = false)
    (hanim : animation_stage env (selected_scenes env.scenesToGenerate researchData.scenes) =
      .ok animationResults)
    (hvp : (animationResults.filterMap Prod.snd).isEmpty = false)
    (hvoice : env.includeVoiceover = true)
    (hsel : select_successful_scenes (selected_scenes env.scenesToGenerate researchData.scenes)
        animationResults = .ok successfulScenes)
    (hvo : env.generateAllVoiceovers successfulScenes = .ok audio)
    (hcomp : env.composeFullVideo (animationResults.filterMap Prod.snd) audio env.sectionPause =
      .ok finalVideo) :
    process_paper env pdf_path =
      finish_run env (path_stem pdf_path) researchData.paperTitle animationResults finalVideo
        { researchCalled := true, animateCalled := true, voiceCalled := true,
          composeCalled := true } := by
  unfold process_paper
  simp only [hmiss, hres, hkey, hnonempty, hanim, hvp, hvoice, hsel, hvo, hcomp,
    Bool.or_self, Bool.false_eq_true, if_false, if_true]

/-! ### Claim C7 -/

/-- Claim C7, counterexample: an error raised while downloading the metadata
object during a cache lookup is swallowed, and the lookup still returns a hit
`(exists=true, url, metadata=None)` — not absent — contradicting the claim
that every error raised during cache lookup makes the lookup return absent. -/
theorem C7_soft_cache_failures_counterexample :
    (metadata_error_client.download ()
        (get_metadata_path (generate_paper_hash (fun s => s) "p".toList))).1 =
      .error "connection reset".toList ∧
    (check_cache (some metadata_error_client) (fun s => s) () "p".toList).1 =
      (true,
        some (public_url_base ++ get_video_path (generate_paper_hash (fun s => s) "p".toList)),
        none) :=
  ⟨rfl, rfl⟩

/-- Claim C7, amended: cache I/O failures are never fatal.  Lookups never
raise: every lookup either hits or reports absent `(false, none, none)` (in
particular every error in the URL retrieval or the existence check degrades
to absent; an error fetching the metadata object is swallowed and the lookup
can still hit, with no metadata).  Stores never raise: every store either
succeeds with a URL or degrades to `(false, none)`.  After an absent lookup
the pipeline proceeds to regeneration, and a run whose store fails still
returns the freshly generated video with `success=true` and no cached URL. -/
theorem C7_cache_failures_soft_amended :
    (∀ (σ M : Type) (client : Option (SBClient σ M)) (digest : Str → Str) (st : σ) (pid : Str),
      (check_cache client digest st pid).1.1 = true ∨
      (check_cache client digest st pid).1 = (false, none, none)) ∧
    (∀ (σ M : Type) (client : Option (SBClient σ M)) (digest : Str → Str) (st : σ)
        (ex : Bool) (pid : Str) (md : M) (upd : M → Str → Str → M),
      (upload_video client digest st ex pid md upd).1 = (false, none) ∨
      ∃ url, (upload_video client digest st ex pid md upd).1 = (true, some url)) ∧
    (∀ (S C M : Type) (env : PipelineEnv S C M) (pdf_path : Str),
      env.checkCache (path_stem pdf_path) = (false, none, none) →
      (process_paper env pdf_path).2.researchCalled = true) ∧
    (∀ (S C M : Type) (env : PipelineEnv S C M) (pdf_path : Str)
        (researchData : ResearchData S) (animationResults : List (Option C × Option Str))
        (successfulScenes : List S) (audio : List Str) (finalVideo : Str),
      cache_hit_step env (path_stem pdf_path) = none →
      env.research = .ok researchData →
      researchData.hasErrorKey = false →
      researchData.scenes.isEmpty = false →
      animation_stage env (selected_scenes env.scenesToGenerate researchData.scenes) =
        .ok animationResults →
      (animationResults.filterMap Prod.snd).isEmpty = false →
      env.includeVoiceover = true →
      select_successful_scenes (selected_scenes env.scenesToGenerate researchData.scenes)
        animationResults = .ok successfulScenes →
      env.generateAllVoiceovers successfulScenes = .ok audio →
      env.composeFullVideo (animationResults.filterMap Prod.snd) audio env.sectionPause =
        .ok finalVideo →
      env.uploadVideo = (fun _ _ => (false, none)) →
      ∃ (summary : RunSummary) (tr : PipelineTrace),
        process_paper env pdf_path = (.ok summary, tr) ∧
        summary.success = true ∧ summary.finalVideo = some finalVideo ∧
        summary.videoUrl = none) := by
  refine ⟨?_, ?_, ?_, ?_⟩
  · intro σ M client digest st pid
    unfold check_cache
    cases client with
    | none => exact Or.inr rfl
    | some c =>
      dsimp only
      rcases c.get_public_url st (get_video_path (generate_paper_hash digest pid)) with ⟨r1, st1⟩
      cases r1 with
      | error e => exact Or.inr rfl
      | ok url =>
        dsimp only
        rcases c.head_request
            (c.download st1 (get_metadata_path (generate_paper_hash digest pid))).2 url with
          ⟨ho, st3⟩
        cases ho with
        | status code =>
          dsimp only
          by_cases hc : code = 200
          · rw [if_pos hc]
            exact Or.inl rfl
          · rw [if_neg hc]
            exact Or.inr rfl
        | httpError code => exact Or.inr rfl
        | raised msg => exact Or.inr rfl
  · intro σ M client digest st ex pid md upd
    unfold upload_video
    cases client with
    | none => exact Or.inl rfl
    | some c =>
      dsimp only
      cases ex with
      | false => exact Or.inl rfl
      | true =>
        rcases c.upload (c.remove st (get_video_path (generate_paper_hash digest pid))).2
            (get_video_path (generate_paper_hash digest pid)) .video with ⟨r2, st2⟩
        cases r2 with
        | error e => exact Or.inl rfl
        | ok u =>
          dsimp only
          rcases c.upload
              (c.remove st2 (get_metadata_path (generate_paper_hash digest pid))).2
              (get_metadata_path (generate_paper_hash digest pid))
              (.metaFile (upd md pid (generate_paper_hash digest pid))) with ⟨r4, st4⟩
          cases r4 with
          | error e => exact Or.inl rfl
          | ok u2 =>
            dsimp only
            rcases c.get_public_url st4 (get_video_path (generate_paper_hash digest pid)) with
              ⟨r5, st5⟩
            cases r5 with
            | error e => exact Or.inl rfl
            | ok url => exact Or.inr ⟨url, rfl⟩
  · intro S C M env pdf_path hcheck
    apply process_paper_proceeds_on_miss
    unfold cache_hit_step
    rw [hcheck]
    split <;> rfl
  · intro S C M env pdf_path researchData animationResults successfulScenes audio finalVideo
      hmiss hres hkey hnonempty hanim hvp hvoice hsel hvo hcomp hupload
    rw [process_paper_happy_voiceover env pdf_path researchData animationResults
      successfulScenes audio finalVideo hmiss hres hkey hnonempty hanim hvp hvoice hsel hvo hcomp]
    unfold finish_run
    split
    · refine ⟨_, _, rfl, rfl, rfl, ?_⟩
      simp [create_summary, hupload, truthyStr]
    · exact ⟨_, _, rfl, rfl, rfl, by simp [create_summary, truthyStr]⟩

/-- Claim C7, witness for the amended theorem: a client-less lookup reports
absent; a client-less store degrades to `(false, none)`; an absent lookup
makes the run proceed to the researcher; and a run whose every store fails
still reports success with the fresh video and no cached URL. -/
theorem C7_cache_failures_soft_amended_witness :
    ((check_cache (none : Option (SBClient Unit Unit)) (fun s => s) () "p".toList).1.1 = true ∨
      (check_cache (none : Option (SBClient Unit Unit)) (fun s => s) () "p".toList).1 =
        (false, none, none)) ∧
    ((upload_video (none : Option (SBClient Unit Unit)) (fun s => s) () true "p".toList ()
        (fun m _ _ => m)).1 = (false, none) ∨
      ∃ url, (upload_video (none : Option (SBClient Unit Unit)) (fun s => s) () true "p".toList ()
        (fun m _ _ => m)).1 = (true, some url)) ∧
    (process_paper boom_env "paper.pdf".toList).2.researchCalled = true ∧
    (∃ (summary : RunSummary) (tr : PipelineTrace),
      process_paper partial_success_env "paper.pdf".toList = (.ok summary, tr) ∧
      summary.success = true ∧ summary.finalVideo = some "final_video.mp4".toList ∧
      summary.videoUrl = none) :=
  ⟨C7_cache_failures_soft_amended.1 Unit Unit none (fun s => s) () "p".toList,
    C7_cache_failures_soft_amended.2.1 Unit Unit none (fun s => s) () true "p".toList ()
      (fun m _ _ => m),
    C7_cache_failures_soft_amended.2.2.1 Unit Unit Unit boom_env "paper.pdf".toList rfl,
    C7_cache_failures_soft_amended.2.2.2 Unit Unit Unit partial_success_env "paper.pdf".toList
      { hasErrorKey := false, paperTitle := none, scenes := [(), ()] }
      [(none, some "v0.mp4".toList), (none, none)] [()] ["a0.mp3".toList]
      "final_video.mp4".toList rfl rfl rfl rfl rfl rfl rfl rfl rfl rfl rfl⟩

/-! ### Claim C2 -/

/-- The video and metadata storage paths of one hash always differ. -/
theorem get_video_path_ne_metadata_path (h : Str) :
    get_video_path h ≠ get_metadata_path h := by
  intro he
  unfold get_video_path get_metadata_path at he
  have : "/final_video.mp4".toList = "/metadata.json".toList :=
    List.append_cancel_left he
  exact absurd this (by decide)

/-- On the healthy backend, a store that was told the video file exists
succeeds and returns the video's public URL. -/
theorem upload_video_store_client_fst {M : Type} (digest : Str → Str) (st0 : StoreState M)
    (pid : Str) (md : M) (upd : M → Str → Str → M) :
    (upload_video (some (store_client M)) digest st0 true pid md upd).1 =
      (true, some (public_url_base ++ get_video_path (generate_paper_hash digest pid))) :=
  rfl

/-- After a successful store on the healthy backend, some stored path's
public URL equals the video's public URL (which is what the HEAD request of
a subsequent lookup checks). -/
theorem upload_video_store_client_hits {M : Type} (digest : Str → Str) (st0 : StoreState M)
    (pid : Str) (md : M) (upd : M → Str → Str → M) :
    ((upload_video (some (store_client M)) digest st0 true pid md upd).2).any
      (fun e => public_url_base ++ e.1 ==
        public_url_base ++ get_video_path (generate_paper_hash digest pid)) = true := by
  have hne : ((get_video_path (generate_paper_hash digest pid)) ==
      (get_metadata_path (generate_paper_hash digest pid))) = false :=
    beq_eq_false_iff_ne.mpr (get_video_path_ne_metadata_path _)
  simp only [upload_video, store_client, store_insert, store_remove, Bool.not_true,
    Bool.false_eq_true, if_false, List.filter_cons, hne, Bool.not_false, if_true,
    List.any_cons, beq_self_eq_true, Bool.or_true, Bool.true_or]

/-- A lookup on the healthy backend hits whenever some stored path's public
URL equals the video's public URL. -/
theorem store_client_check_cache_hit {M : Type} (digest : Str → Str) (st : StoreState M)
    (pid : Str)
    (hmem : st.any (fun e => public_url_base ++ e.1 ==
        public_url_base ++ get_video_path (generate_paper_hash digest pid)) = true) :
    (check_cache (some (store_client M)) digest st pid).1 =
      (true, some (public_url_base ++ get_video_path (generate_paper_hash digest pid)),
        (check_cache (some (store_client M)) digest st pid).1.2.2) := by
  unfold check_cache store_client
  dsimp only
  rw [hmem]
  rfl

/-- Claim C2: after a first run's store of the composed video succeeded (on a
functioning backend), a second run with the same input identity is a cache
hit: `check_cache` succeeds, `process_paper` returns early with
`success=true`, `cached=true` and a video location, and neither the
researcher, the animation workers, the voiceover generator, the composer,
the stitcher nor the uploader is invoked. -/
theorem C2_second_run_is_cache_hit {S C M : Type} (digest : Str → Str) (st0 : StoreState M)
    (pdf_path : Str) (md : M) (upd : M → Str → Str → M) (env : PipelineEnv S C M)
    (hcache : env.useCache = true)
    (hcheck : env.checkCache = fun s =>
      (check_cache (some (store_client M)) digest
        (upload_video (some (store_client M)) digest st0 true (path_stem pdf_path) md upd).2
        s).1) :
    (upload_video (some (store_client M)) digest st0 true (path_stem pdf_path) md upd).1 =
      (true, some (public_url_base ++
        get_video_path (generate_paper_hash digest (path_stem pdf_path)))) ∧
    (check_cache (some (store_client M)) digest
        (upload_video (some (store_client M)) digest st0 true (path_stem pdf_path) md upd).2
        (path_stem pdf_path)).1.1 = true ∧
    ∃ summary : RunSummary,
      process_paper env pdf_path = (.ok summary, { downloadCalled := true }) ∧
      summary.success = true ∧ summary.cached = some true ∧
      summary.videoUrl = some (public_url_base ++
        get_video_path (generate_paper_hash digest (path_stem pdf_path))) ∧
      summary.finalVideo.isSome = true := by
  have hany := upload_video_store_client_hits digest st0 (path_stem pdf_path) md upd
  have hhit := store_client_check_cache_hit digest
    (upload_video (some (store_client M)) digest st0 true (path_stem pdf_path) md upd).2
    (path_stem pdf_path) hany
  refine ⟨upload_video_store_client_fst digest st0 (path_stem pdf_path) md upd,
    by rw [hhit], ?_⟩
  have hstep : cache_hit_step env (path_stem pdf_path) =
      some (public_url_base ++ get_video_path (generate_paper_hash digest (path_stem pdf_path)),
        (check_cache (some (store_client M)) digest
          (upload_video (some (store_client M)) digest st0 true (path_stem pdf_path) md upd).2
          (path_stem pdf_path)).1.2.2) := by
    unfold cache_hit_step
    rw [hcache, hcheck]
    dsimp only
    rw [hhit]
    rfl
  refine ⟨{ success := true
            cached := some true
            paperTitle := some
              (match (check_cache (some (store_client M)) digest
                  (upload_video (some (store_client M)) digest st0 true (path_stem pdf_path)
                    md upd).2 (path_stem pdf_path)).1.2.2 with
               | some m => (env.metaTitle m).getD (path_stem pdf_path)
               | none => path_stem pdf_path)
            finalVideo := some ((env.downloadCachedVideo (path_stem pdf_path)).getD
              (public_url_base ++
                get_video_path (generate_paper_hash digest (path_stem pdf_path))))
            videoUrl := some (public_url_base ++
              get_video_path (generate_paper_hash digest (path_stem pdf_path)))
            totalScenes := none
            successfulRenders := none
            failedRenders := none
            error := none },
    ?_, rfl, rfl, rfl, rfl⟩
  unfold process_paper
  simp only [hstep]

/-- Claim C2, witness: on an initially empty backend with the identity
digest, storing for `papers/attention.pdf` and re-running the pipeline hits
the cache with no collaborator invoked except the cached-video download. -/
theorem C2_second_run_is_cache_hit_witness :
    (upload_video (some (store_client Unit)) (fun s => s) [] true
        (path_stem "papers/attention.pdf".toList) () (fun m _ _ => m)).1 =
      (true, some (public_url_base ++
        get_video_path (generate_paper_hash (fun s => s)
          (path_stem "papers/attention.pdf".toList)))) ∧
    (check_cache (some (store_client Unit)) (fun s => s)
        (upload_video (some (store_client Unit)) (fun s => s) [] true
          (path_stem "papers/attention.pdf".toList) () (fun m _ _ => m)).2
        (path_stem "papers/attention.pdf".toList)).1.1 = true ∧
    ∃ summary : RunSummary,
      process_paper
          { boom_env with
            useCache := true
            checkCache := fun s =>
              (check_cache (some (store_client Unit)) (fun s2 => s2)
                (upload_video (some (store_client Unit)) (fun s2 => s2) [] true
                  (path_stem "papers/attention.pdf".toList) () (fun m _ _ => m)).2
                s).1 }
          "papers/attention.pdf".toList =
        (.ok summary, { downloadCalled := true }) ∧
      summary.success = true ∧ summary.cached = some true ∧
      summary.videoUrl = some (public_url_base ++
        get_video_path (generate_paper_hash (fun s => s)
          (path_stem "papers/attention.pdf".toList))) ∧
      summary.finalVideo.isSome = true :=
  C2_second_run_is_cache_hit (fun s => s) [] "papers/attention.pdf".toList () (fun m _ _ => m)
    { boom_env with
      useCache := true
      checkCache := fun s =>
        (check_cache (some (store_client Unit)) (fun s2 => s2)
          (upload_video (some (store_client Unit)) (fun s2 => s2) [] true
            (path_stem "papers/attention.pdf".toList) () (fun m _ _ => m)).2
          s).1 }
    rfl rfl

/-! ### Claim C6 -/

/-- Claim C6: if every scene fails generation (no worker produces a video
path), the run returns `success=false` with an error, the composer (and the
voiceover generator, stitcher and uploader) is never invoked, and no final
video path is produced. -/
theorem C6_zero_success_run_fails {S C M : Type} (env : PipelineEnv S C M) (pdf_path : Str)
    (researchData : ResearchData S) (animationResults : List (Option C × Option Str))
    (hmiss : cache_hit_step env (path_stem pdf_path) = none)
    (hres : env.research = .ok researchData)
    (hkey : researchData.hasErrorKey = false)
    (hnonempty : researchData.scenes.isEmpty = false)
    (hanim : animation_stage env (selected_scenes env.scenesToGenerate researchData.scenes) =
      .ok animationResults)
    (hfail : ∀ r ∈ animationResults, r.2 = none) :
    process_paper env pdf_path =
      (.ok { success := false, cached := none, paperTitle := none, finalVideo := none,
             videoUrl := none, totalScenes := none, successfulRenders := none,
             failedRenders := none, error := some "Animation generation failed".toList },
       { researchCalled := true, animateCalled := true }) := by
  have hvp : (animationResults.filterMap Prod.snd).isEmpty = true := by
    rw [List.filterMap_eq_nil_iff.mpr hfail]
    rfl
  unfold process_paper
  simp only [hmiss, hres, hkey, hnonempty, hanim, hvp, Bool.or_self, Bool.false_eq_true,
    if_false, if_true]

/-- Claim C6, witness: one scene whose generation yields no video path gives
a failed run with the animation-generation error and no composer call. -/
theorem C6_zero_success_run_fails_witness :
    process_paper zero_success_env "paper.pdf".toList =
      (.ok { success := false, cached := none, paperTitle := none, finalVideo := none,
             videoUrl := none, totalScenes := none, successfulRenders := none,
             failedRenders := none, error := some "Animation generation failed".toList },
       { researchCalled := true, animateCalled := true }) :=
  C6_zero_success_run_fails zero_success_env "paper.pdf".toList
    { hasErrorKey := false, paperTitle := none, scenes := [()] } [(none, none)]
    rfl rfl rfl rfl rfl
    (by intro r hr; rw [List.mem_singleton] at hr; subst hr; rfl)

/-! ### Claim C9 -/

/-- Claim C9, counterexample: `process_paper` has no try/except of its own,
so an exception raised by the researcher (here a connection error from
`analyze_paper`) escapes the orchestrator's boundary instead of being turned
into a structured outcome. -/
theorem C9_never_throws_counterexample :
    (process_paper boom_env "paper.pdf".toList).1 =
      .error (.exception "connection error".toList) := rfl

/-- Claim C9, amended: on the handled paths the orchestrator returns a
structured outcome, and partial success (some scenes failed) is reported as a
successful run with `success=true` and explicit successful/failed counts,
never hidden; however, an exception raised by a stage (for instance the
researcher) propagates past `process_paper`'s boundary uncaught. -/
theorem C9_structured_outcome_amended :
    (∀ (S C M : Type) (env : PipelineEnv S C M) (pdf_path : Str)
        (researchData : ResearchData S) (animationResults : List (Option C × Option Str))
        (successfulScenes : List S) (audio : List Str) (finalVideo : Str),
      cache_hit_step env (path_stem pdf_path) = none →
      env.research = .ok researchData →
      researchData.hasErrorKey = false →
      researchData.scenes.isEmpty = false →
      animation_stage env (selected_scenes env.scenesToGenerate researchData.scenes) =
        .ok animationResults →
      (animationResults.filterMap Prod.snd).isEmpty = false →
      env.includeVoiceover = true →
      select_successful_scenes (selected_scenes env.scenesToGenerate researchData.scenes)
        animationResults = .ok successfulScenes →
      env.generateAllVoiceovers successfulScenes = .ok audio →
      env.composeFullVideo (animationResults.filterMap Prod.snd) audio env.sectionPause =
        .ok finalVideo →
      ∃ (summary : RunSummary) (tr : PipelineTrace),
        process_paper env pdf_path = (.ok summary, tr) ∧
        summary.success = true ∧
        summary.totalScenes = some animationResults.length ∧
        summary.successfulRenders =
          some (animationResults.filter (fun r => r.2.isSome)).length ∧
        summary.failedRenders =
          some (animationResults.length -
            (animationResults.filter (fun r => r.2.isSome)).length) ∧
        summary.finalVideo = some finalVideo ∧
        summary.error = none) ∧
    (∀ (S C M : Type) (env : PipelineEnv S C M) (pdf_path : Str) (e : PyErr),
      cache_hit_step env (path_stem pdf_path) = none →
      env.research = .error e →
      (process_paper env pdf_path).1 = .error e) := by
  constructor
  · intro S C M env pdf_path rd ar ss audio fv hmiss hres hkey hnonempty hanim hvp hvoice
      hsel hvo hcomp
    rw [process_paper_happy_voiceover env pdf_path rd ar ss audio fv hmiss hres hkey
      hnonempty hanim hvp hvoice hsel hvo hcomp]
    unfold finish_run
    split
    · exact ⟨_, _, rfl, rfl, rfl, rfl, rfl, rfl, rfl⟩
    · exact ⟨_, _, rfl, rfl, rfl, rfl, rfl, rfl, rfl⟩
  · intro S C M env pdf_path e hmiss hres
    unfold process_paper
    simp only [hmiss, hres]

/-- Claim C9, witness for the amended theorem: a two-scene run with one
failed scene is reported as a successful run with counts 1/1, and the
researcher-exception environment propagates its error. -/
theorem C9_structured_outcome_amended_witness :
    (∃ (summary : RunSummary) (tr : PipelineTrace),
      process_paper partial_success_env "paper.pdf".toList = (.ok summary, tr) ∧
      summary.success = true ∧
      summary.totalScenes = some 2 ∧
      summary.successfulRenders = some 1 ∧
      summary.failedRenders = some 1 ∧
      summary.finalVideo = some "final_video.mp4".toList ∧
      summary.error = none) ∧
    (process_paper boom_env "paper2.pdf".toList).1 =
      .error (.exception "connection error".toList) :=
  ⟨C9_structured_outcome_amended.1 Unit Unit Unit partial_success_env "paper.pdf".toList
      { hasErrorKey := false, paperTitle := none, scenes := [(), ()] }
      [(none, some "v0.mp4".toList), (none, none)] [()] ["a0.mp3".toList]
      "final_video.mp4".toList rfl rfl rfl rfl rfl rfl rfl rfl rfl rfl,
    C9_structured_outcome_amended.2 Unit Unit Unit boom_env "paper2.pdf".toList
      (.exception "connection error".toList) rfl rfl⟩

end VisuArXiv
